import Mathlib

/-!
Verification of the network_stats scheduling-and-execution engine.

Shallow embedding of the Python sources:
- `src/collectors/ping_collector.py` (namespace `PingCollector`)
- `src/services/job_manager.py` (namespace `JobManager`)
- `src/services/scheduler.py` (namespace `Scheduler`)
together with the persistent-store records of `src/core/database.py`.

Clock reads (`datetime.now`) are passed as explicit rational parameters;
the persistent store is an in-memory record of lists; operations of
external collaborators that the engine only calls (destination lookup,
the probe entry point used by the job runner) are oracle parameters.
-/

namespace PingCollector

/-- Digits of a decimal literal folded to a natural number, as Python
`int()` does on a nonempty digit string. -/
def charsToNat (ds : List Char) : Nat :=
  ds.foldl (fun n c => 10 * n + (c.toNat - 48)) 0

/-- Strip an exact literal from the front of a character list; `none`
when the literal is not a prefix.  Used to run the regular expressions
of `_parse_reply_line` / `_parse_packet_loss` deterministically (each
greedy class in those patterns is followed by a literal outside the
class, so no backtracking is ever needed). -/
def dropLit : List Char → List Char → Option (List Char)
  | [], l => some l
  | _, [] => none
  | p :: ps, c :: cs => if p = c then dropLit ps cs else none

/-- `needle` occurs somewhere in `hay` (Python `in` on strings). -/
def containsSub (needle hay : List Char) : Bool :=
  hay.tails.any (fun t => needle.isPrefixOf t)

/-- Parsed fields of one `Reply from` line: the round-trip time and the
optional TTL (`_parse_reply_line`). -/
structure ReplyInfo where
  time_ms : Nat
  ttl : Option Nat
deriving DecidableEq, Repr

/-- Match `Reply from [\d.]+: bytes=\d+ time=(\d+)ms(?: TTL=(\d+))?`
anchored at the head of the list. -/
def matchReplyAt (l : List Char) : Option ReplyInfo :=
  match dropLit "Reply from ".data l with
  | none => none
  | some l =>
    let (hostPart, rest) := l.span (fun c => c.isDigit || c == '.')
    if hostPart.isEmpty then none
    else match dropLit ": bytes=".data rest with
    | none => none
    | some l =>
      let (bytesDs, rest) := l.span Char.isDigit
      if bytesDs.isEmpty then none
      else match dropLit " time=".data rest with
      | none => none
      | some l =>
        let (timeDs, rest) := l.span Char.isDigit
        if timeDs.isEmpty then none
        else match dropLit "ms".data rest with
        | none => none
        | some l =>
          match dropLit " TTL=".data l with
          | none => some ⟨charsToNat timeDs, none⟩
          | some r =>
            let (ttlDs, _) := r.span Char.isDigit
            if ttlDs.isEmpty then some ⟨charsToNat timeDs, none⟩
            else some ⟨charsToNat timeDs, some (charsToNat ttlDs)⟩

/-- `re.search` scan for the reply pattern: first start position that
matches wins. -/
def searchReply : List Char → Option ReplyInfo
  | [] => none
  | l@(_ :: tl) =>
    match matchReplyAt l with
    | some r => some r
    | none => searchReply tl

/-- Match `\((\d+)%.*loss\)` anchored at the head of the list. -/
def matchLossAt : List Char → Option Nat
  | '(' :: rest =>
    let (ds, rest') := rest.span Char.isDigit
    if ds.isEmpty then none
    else match rest' with
      | '%' :: tail =>
        if containsSub "loss)".data tail then some (charsToNat ds) else none
      | _ => none
  | _ => none

/-- `_parse_packet_loss`: `re.search` for the loss pattern; `0` when the
pattern does not occur. -/
def searchLoss : List Char → Nat
  | [] => 0
  | l@(_ :: tl) =>
    match matchLossAt l with
    | some n => n
    | none => searchLoss tl

/-- ASCII whitespace as Python `str.strip()` removes it. -/
def pyIsSpace (c : Char) : Bool :=
  c = ' ' || c = '\t' || c = '\n' || c = '\r' || c = '\x0b' || c = '\x0c'

/-- Python `str.strip()` (both ends). -/
def pyStrip (l : List Char) : List Char :=
  ((l.dropWhile pyIsSpace).reverse.dropWhile pyIsSpace).reverse

/-- Python `str.split('\n')`. -/
def splitLines : List Char → List (List Char)
  | [] => [[]]
  | c :: cs =>
    let r := splitLines cs
    if c = '\n' then [] :: r
    else
      match r with
      | [] => [[c]]
      | h :: t => (c :: h) :: t

/-- The condition `'packet loss' in line.lower() or 'lost' in line.lower()`
that triggers `_parse_packet_loss` on a line. -/
def lossTrigger (line : List Char) : Bool :=
  let lower := line.map Char.toLower
  containsSub "packet loss".data lower || containsSub "lost".data lower

/-- Accumulator of the line loop of `_parse_ping_output`:
reply times in order, current packet-loss value, current TTL. -/
def scanLine (st : List Nat × Nat × Option Nat) (line : List Char) :
    List Nat × Nat × Option Nat :=
  let rts := st.1
  let pl := st.2.1
  let ttl := st.2.2
  let (rts, ttl) :=
    if "Reply from".data.isPrefixOf (pyStrip line) then
      match searchReply line with
      | some r =>
        (rts ++ [r.time_ms],
         match r.ttl with
         | some t => if t ≠ 0 then some t else ttl
         | none => ttl)
      | none => (rts, ttl)
    else (rts, ttl)
  let pl := if lossTrigger line then searchLoss line else pl
  (rts, pl, ttl)

/-- The full line loop of `_parse_ping_output` over
`output.strip().split('\n')`. -/
def scanLines (output : String) : List Nat × Nat × Option Nat :=
  (splitLines (pyStrip output.data)).foldl scanLine ([], 0, none)

/-- The dictionary `_parse_ping_output` returns on its normal path.
(The `stats` variable of the source is parsed but never used in the
returned dictionary, so it is not modelled; the jitter entry is the
separate function `jitter_ms` below, kept apart only so that the rest
of the record stays computable.) -/
structure PingParsed where
  success : Bool
  host : String
  packets_sent : Nat
  packets_received : Nat
  packet_loss_percent : Nat
  response_times : List Nat
  min_response_time_ms : Option Nat
  max_response_time_ms : Option Nat
  avg_response_time_ms : Option ℚ
  ttl : Option Nat
  raw_output : String
deriving DecidableEq, Repr

/-- `_parse_ping_output` (normal path; every operation it performs is
total, so its `except` branch is unreachable in the model). -/
def parse_ping_output (output host : String) : PingParsed :=
  let st := scanLines output
  { success := !st.1.isEmpty
    host := host
    packets_sent := st.1.length + st.2.1
    packets_received := st.1.length
    packet_loss_percent := st.2.1
    response_times := st.1
    min_response_time_ms :=
      match st.1 with
      | [] => none
      | x :: xs => some (xs.foldl Nat.min x)
    max_response_time_ms :=
      match st.1 with
      | [] => none
      | x :: xs => some (xs.foldl Nat.max x)
    avg_response_time_ms :=
      if st.1.isEmpty then none
      else some ((st.1.map (Nat.cast : Nat → ℚ)).sum / st.1.length)
    ttl := st.2.2
    raw_output := output }

/-- Python `round(x, 2)` on the jitter value: nearest multiple of `1/100`. -/
noncomputable def pyRound2 (x : ℝ) : ℝ := ((round (100 * x) : ℤ) : ℝ) / 100

/-- `_calculate_jitter`: `None` for fewer than 2 samples, else the square
root of the mean squared deviation, rounded to 2 decimals. -/
noncomputable def calculate_jitter (response_times : List ℚ) : Option ℝ :=
  if response_times.length < 2 then none
  else
    let avg : ℚ := response_times.sum / response_times.length
    let variance : ℚ :=
      (response_times.map (fun t => (t - avg) ^ 2)).sum / response_times.length
    some (pyRound2 (Real.sqrt (variance : ℝ)))

/-- The `jitter_ms` entry of the parsed dictionary. -/
noncomputable def jitter_ms (p : PingParsed) : Option ℝ :=
  calculate_jitter (p.response_times.map (Nat.cast : Nat → ℚ))

/-- The population standard deviation, written from the words of the
spec: square root of the mean of the squared deviations from the mean. -/
noncomputable def population_std_dev (xs : List ℚ) : ℝ :=
  Real.sqrt (((xs.map (fun t => (t - xs.sum / xs.length) ^ 2)).sum / xs.length : ℚ) : ℝ)

/-- Outcome of the subprocess spawn/wait inside `ping_async`, supplied
by the environment: the spawn may raise, the wait may time out, or the
process exits with a return code and captured output. -/
inductive SpawnOutcome where
  | spawnError (msg : String)
  | timedOut
  | exited (returncode : Int) (stdout stderr : String)
deriving DecidableEq, Repr

/-- The dictionary `ping_async` returns; keys that a branch does not set
are `none`. -/
structure PingReturn where
  success : Bool
  host : String
  packets_sent : Option Nat
  packets_received : Option Nat
  packet_loss_percent : Option Nat
  response_times : Option (List Nat)
  min_response_time_ms : Option Nat
  max_response_time_ms : Option Nat
  avg_response_time_ms : Option ℚ
  ttl : Option Nat
  error : Option String
  output : Option String
  stderr : Option String
  raw_output : Option String
deriving DecidableEq, Repr

/-- Lift the parsed dictionary into the common return shape. -/
def ofParsed (p : PingParsed) : PingReturn :=
  { success := p.success
    host := p.host
    packets_sent := some p.packets_sent
    packets_received := some p.packets_received
    packet_loss_percent := some p.packet_loss_percent
    response_times := some p.response_times
    min_response_time_ms := p.min_response_time_ms
    max_response_time_ms := p.max_response_time_ms
    avg_response_time_ms := p.avg_response_time_ms
    ttl := p.ttl
    error := none
    output := none
    stderr := none
    raw_output := some p.raw_output }

/-- An all-`none` error-shaped return. -/
def errReturn (host : String) (msg : String) : PingReturn :=
  { success := false
    host := host
    packets_sent := none
    packets_received := none
    packet_loss_percent := none
    response_times := none
    min_response_time_ms := none
    max_response_time_ms := none
    avg_response_time_ms := none
    ttl := none
    error := some msg
    output := none
    stderr := none
    raw_output := none }

/-- `ping_async`: total on every spawn outcome (the Python method
catches `asyncio.TimeoutError` and `Exception` and returns error
dictionaries, so nothing escapes to the caller). -/
def ping_async (host : String) (_count timeout : Nat) (outcome : SpawnOutcome) :
    PingReturn :=
  match outcome with
  | .spawnError msg => errReturn host msg
  | .timedOut =>
    errReturn host ("Ping timed out after " ++ toString timeout ++ " seconds")
  | .exited rc stdout stderr =>
    if rc = 0 then
      ofParsed (parse_ping_output stdout host)
    else
      { errReturn host ("Ping failed with code " ++ toString rc) with
        output := some stdout
        stderr := some stderr }

end PingCollector

namespace Store

/-- The persisted `jobs` row fields the engine reads and writes
(`src/core/database.py`, class `Job`). -/
structure JobRec where
  id : Nat
  enabled : Bool
  interval : Nat
  last_run : Option ℚ
  next_run : Option ℚ
deriving DecidableEq, Repr

/-- The persisted `job_runs` row (`src/core/database.py`, class `JobRun`). -/
structure JobRunRec where
  id : Nat
  job_id : Nat
  start_time : ℚ
  end_time : Option ℚ
  status : String
  total_destinations : Nat
  successful_destinations : Nat
  failed_destinations : Nat
  error_message : Option String
deriving DecidableEq, Repr

/-- One stored metric sample as built by `_collect_ping_metric`
(constructor keyword arguments plus the `metadata` dictionary; metadata
keys a branch does not set are `none`). -/
structure MetricRec where
  job_id : Nat
  destination_id : Nat
  metric_type : String
  value : Option ℚ
  unit : String
  status : String
  run_id : Nat
  meta_packet_loss : Option ℚ
  meta_jitter : Option ℚ
  meta_min_latency : Option ℚ
  meta_max_latency : Option ℚ
  meta_error : Option String
deriving DecidableEq, Repr

/-- The persistent store visible to the engine. -/
structure DB where
  jobs : List JobRec
  job_runs : List JobRunRec
  metrics : List MetricRec
deriving DecidableEq, Repr

/-- `UPDATE jobs SET ... WHERE id = jid`. -/
def updateJob (jid : Nat) (f : JobRec → JobRec) (db : DB) : DB :=
  { db with jobs := db.jobs.map (fun j => if j.id = jid then f j else j) }

/-- `SELECT ... FROM jobs WHERE id = jid` (first row). -/
def getJob (jid : Nat) (db : DB) : Option JobRec :=
  db.jobs.find? (fun j => j.id = jid)

/-- `SELECT ... FROM job_runs WHERE id = rid` (first row). -/
def getRun (rid : Nat) (db : DB) : Option JobRunRec :=
  db.job_runs.find? (fun r => r.id = rid)

end Store

namespace JobManager

open Store

/-- One destination entry of a job configuration
(`src/core/config.py`, `DestinationConfig`). -/
structure DestConfig where
  host : String

/-- The job configuration fields the job manager reads
(`src/core/config.py`, `JobConfig`). -/
structure JobConfig where
  interval : Nat
  metrics : List String
  destinations : List DestConfig

/-- Modelled from the spec: the result shape of the ProbeExecutor
operation the job runner invokes (`ping_collector.ping_host` is called
in `_collect_ping_metric` but absent from the source; §6 fixes the
`probe(host, count, timeout) → ProbeResult` contract).  Exactly the
keys the caller reads are modelled: `latency_ms` is read by subscript,
the remaining statistics with `.get` defaults. -/
structure JobPingResult where
  success : Bool
  latency_ms : Option ℚ
  packet_loss : Option ℚ
  jitter_ms : Option ℚ
  min_latency_ms : Option ℚ
  max_latency_ms : Option ℚ

/-- Outcome of one probe invocation as seen by `_collect_ping_metric`:
either a returned result dictionary or a raised exception. -/
inductive ProbeOutcome where
  | ok (r : JobPingResult)
  | raised (msg : String)

/-- Environment of one job execution.  `resolve` is modelled from the
spec: the store operation `getDestinationByHost(host) → Destination |
none` (§6) that `_execute_job` calls (the method is absent from
`destination_manager.py`); `probe` yields the probe outcome for a host. -/
structure ExecCtx where
  resolve : String → Option Nat
  probe : String → ProbeOutcome

/-- The in-memory state of the job manager: the store plus the
running-job map (`self._running_jobs`, keyed by job id). -/
structure MgrState where
  db : DB
  running_jobs : List Nat
deriving DecidableEq, Repr

/-- `_create_job_run`: insert a `running` row with zero counters and
return its autoincrement id (successful store write). -/
def create_job_run (now : ℚ) (job_id total_destinations : Nat) (db : DB) :
    Nat × DB :=
  let rid := db.job_runs.length + 1
  (rid,
   { db with
     job_runs := db.job_runs ++
       [{ id := rid, job_id := job_id, start_time := now, end_time := none,
          status := "running", total_destinations := total_destinations,
          successful_destinations := 0, failed_destinations := 0,
          error_message := none }] })

/-- `start_job`: refuse when the id is in the running map; otherwise
create the JobRun row, launch the execution task and register it. -/
def start_job (now : ℚ) (job_id : Nat) (cfg : JobConfig) (s : MgrState) :
    Bool × MgrState :=
  if job_id ∈ s.running_jobs then (false, s)
  else
    let created := create_job_run now job_id cfg.destinations.length s.db
    (true, { db := created.2, running_jobs := job_id :: s.running_jobs })

/-- `_update_job_status`: `UPDATE jobs SET enabled = e WHERE id = jid`. -/
def update_job_status (job_id : Nat) (enabled : Bool) (db : DB) : DB :=
  updateJob job_id (fun j => { j with enabled := enabled }) db

/-- `stop_job`.  `unitStarted` records whether the execution task had
already begun running when it was cancelled.  If it had, the task's own
`finally` removes the id from the running map while `stop_job` awaits
the cancellation, so `stop_job`'s subsequent unconditional
`del self._running_jobs[job_id]` raises `KeyError`, the blanket
`except Exception` swallows it, `_update_job_status` is never reached
and `False` is returned.  If the task never started (cancelled before
its first step), the `del` succeeds and the job is disabled. -/
def stop_job (job_id : Nat) (unitStarted : Bool) (s : MgrState) :
    Bool × MgrState :=
  if job_id ∈ s.running_jobs then
    if unitStarted then
      (false, { s with running_jobs := s.running_jobs.erase job_id })
    else
      (true,
       { db := update_job_status job_id false s.db
         running_jobs := s.running_jobs.erase job_id })
  else (false, s)

/-- `_collect_ping_metric`: exactly one metric row is inserted whatever
the probe outcome.  A returned dictionary is stored with status
`success`/`failed` by its flag, its `latency_ms` as value, and the
statistics in metadata; a raised exception is stored with status
`failed`, value `0`, and only `run_id`/`error` in metadata. -/
def collect_ping_metric (job_id destination_id run_id : Nat)
    (outcome : ProbeOutcome) (db : DB) : DB :=
  match outcome with
  | .ok r =>
    { db with metrics := db.metrics ++
      [{ job_id := job_id, destination_id := destination_id,
         metric_type := "ping", value := r.latency_ms, unit := "ms",
         status := if r.success then "success" else "failed",
         run_id := run_id,
         meta_packet_loss := some (r.packet_loss.getD 0),
         meta_jitter := some (r.jitter_ms.getD 0),
         meta_min_latency := r.min_latency_ms,
         meta_max_latency := r.max_latency_ms,
         meta_error := none }] }
  | .raised msg =>
    { db with metrics := db.metrics ++
      [{ job_id := job_id, destination_id := destination_id,
         metric_type := "ping", value := some 0, unit := "ms",
         status := "failed", run_id := run_id,
         meta_packet_loss := none, meta_jitter := none,
         meta_min_latency := none, meta_max_latency := none,
         meta_error := some msg }] }

/-- Counters accumulated by the destination loop of `_execute_job`. -/
structure ExecCounters where
  metrics_collected : Nat
  destinations_successful : Nat
  destinations_failed : Nat
deriving DecidableEq, Repr

/-- The body of the destination loop of `_execute_job` for one
destination: an unresolved host counts as a failure and skips the
metric loop; a resolved one runs every configured metric (only `ping`
is implemented, other types are skipped with a warning) and is then
counted successful.  `collect_ping_metric` returns normally on both of
its branches, so the surrounding `except` never fires in the model. -/
def processDestination (ctx : ExecCtx) (job_id run_id : Nat)
    (metrics : List String) (st : ExecCounters × DB) (d : DestConfig) :
    ExecCounters × DB :=
  let c := st.1
  let db := st.2
  match ctx.resolve d.host with
  | none => ({ c with destinations_failed := c.destinations_failed + 1 }, db)
  | some destination_id =>
    let step := metrics.foldl
      (fun (acc : DB × Nat) m =>
        if m = "ping" then
          (collect_ping_metric job_id destination_id run_id
             (ctx.probe d.host) acc.1,
           acc.2 + 1)
        else acc)
      (db, c.metrics_collected)
    ({ c with
       metrics_collected := step.2
       destinations_successful := c.destinations_successful + 1 },
     step.1)

/-- The destination loop of `_execute_job`. -/
def runDestinations (ctx : ExecCtx) (job_id run_id : Nat) (cfg : JobConfig)
    (db : DB) : ExecCounters × DB :=
  cfg.destinations.foldl (processDestination ctx job_id run_id cfg.metrics)
    (⟨0, 0, 0⟩, db)

/-- `_complete_job_run`: finalize the run row. -/
def complete_job_run (end_time : ℚ) (run_id : Nat) (success : Bool)
    (succ fail : Nat) (db : DB) : DB :=
  { db with job_runs := db.job_runs.map (fun r =>
      if r.id = run_id then
        { r with
          end_time := some end_time
          status := if success then "completed" else "failed"
          successful_destinations := succ
          failed_destinations := fail
          error_message := none }
      else r) }

/-- `_update_job_after_run`: `next_run` starts from the clock reading
and the interval is added only on success; `enabled` is set to the
success flag. -/
def update_job_after_run (now end_time : ℚ) (job_id interval : Nat)
    (success : Bool) (db : DB) : DB :=
  let next_run := if success then now + (interval : ℚ) else now
  updateJob job_id
    (fun j => { j with last_run := some end_time, next_run := some next_run,
                       enabled := success })
    db

/-- `_execute_job` (normal path): run the destinations, finalize the
run row with `success = (destinations_failed == 0)`, update the job,
and deregister from the running map in the `finally`. -/
def execute_job (ctx : ExecCtx) (end_time now_update : ℚ)
    (job_id run_id : Nat) (cfg : JobConfig) (s : MgrState) : MgrState :=
  let step := runDestinations ctx job_id run_id cfg s.db
  let c := step.1
  let success := c.destinations_failed = 0
  let db := complete_job_run end_time run_id success
    c.destinations_successful c.destinations_failed step.2
  let db := update_job_after_run now_update end_time job_id cfg.interval
    success db
  { db := db, running_jobs := s.running_jobs.erase job_id }

end JobManager

namespace Scheduler

open Store

/-- The scheduler's in-memory state: the store, the job manager's
running map (read through `get_running_jobs`), and the scheduled-job
map `self._scheduled_jobs`, holding per job id the recorded dispatch
unit (modelled by the delay it was created with). -/
structure SchedState where
  db : DB
  running_jobs : List Nat
  scheduled_jobs : List (Nat × ℚ)
deriving DecidableEq, Repr

/-- Keys of the scheduled-job map. -/
def scheduledIds (s : SchedState) : List Nat := s.scheduled_jobs.map Prod.fst

/-- Python dict assignment `self._scheduled_jobs[job_id] = task`. -/
def setScheduled (job_id : Nat) (delay : ℚ) (l : List (Nat × ℚ)) :
    List (Nat × ℚ) :=
  (job_id, delay) :: l.filter (fun e => e.1 ≠ job_id)

/-- `_calculate_next_run`: time windows are unimplemented, so the result
is always `now + interval`. -/
def calculate_next_run (now : ℚ) (interval : Nat) : Option ℚ :=
  some (now + (interval : ℚ))

/-- `_update_job_next_run`. -/
def update_job_next_run (job_id : Nat) (next_run : Option ℚ) (db : DB) : DB :=
  updateJob job_id (fun j => { j with next_run := next_run }) db

/-- `schedule_job`: refuse when the job is in the running set; else
compute `next_run`, clamp the dispatch delay at zero, record the
dispatch unit and persist the new `next_run`.  `now₁` is the clock
reading inside `_calculate_next_run`, `now₂` the later reading in the
delay computation. -/
def schedule_job (now₁ now₂ : ℚ) (job_id interval : Nat) (s : SchedState) :
    Bool × SchedState :=
  if job_id ∈ s.running_jobs then (false, s)
  else
    match calculate_next_run now₁ interval with
    | none => (false, s)
    | some next_run_time =>
      let delay := if next_run_time - now₂ < 0 then 0 else next_run_time - now₂
      (true,
       { s with
         scheduled_jobs := setScheduled job_id delay s.scheduled_jobs
         db := update_job_next_run job_id (some next_run_time) s.db })

/-- The selection of `_reschedule_jobs`: enabled jobs whose persisted
`next_run` has passed and whose id is in neither the running set nor
the scheduled map (`Job.next_run <= now` is false on a NULL column). -/
def reschedule_selection (now : ℚ) (s : SchedState) : List JobRec :=
  s.db.jobs.filter (fun j =>
    j.enabled &&
    (match j.next_run with
     | some t => decide (t ≤ now)
     | none => false) &&
    !(s.running_jobs.contains j.id || (scheduledIds s).contains j.id))

/-- `_reschedule_jobs`: call `schedule_job` on each selected job. -/
def reschedule_jobs (now now₁ now₂ : ℚ) (s : SchedState) : SchedState :=
  (reschedule_selection now s).foldl
    (fun st j => (schedule_job now₁ now₂ j.id j.interval st).2) s

/-- The fixed sleep of the maintenance loop: `await asyncio.sleep(30)`
between iterations of `_scheduler_loop`. -/
def scheduler_loop_sleep_seconds : Nat := 30

end Scheduler

/-! Concrete fixtures used by witnesses and counterexamples. -/

/-- An empty store. -/
def dbEmpty : Store.DB := ⟨[], [], []⟩

/-- One enabled job, interval 60, persisted `next_run` 500. -/
def jobOne : Store.JobRec := ⟨1, true, 60, none, some 500⟩

/-- One running JobRun row for job 1. -/
def runOne : Store.JobRunRec := ⟨1, 1, 900, none, "running", 1, 0, 0, none⟩

/-- A store holding `jobOne` and `runOne`. -/
def dbOne : Store.DB := ⟨[jobOne], [runOne], []⟩

/-- A one-destination ping job configuration. -/
def cfgPing1 : JobManager.JobConfig := ⟨60, ["ping"], [⟨"h"⟩]⟩

/-- An environment in which no host resolves and any probe raises. -/
def ctxUnresolved : JobManager.ExecCtx := ⟨fun _ => none, fun _ => .raised "db down"⟩

/-- An environment in which every host resolves to destination 7 and the
probe returns an unsuccessful result. -/
def ctxFailProbe : JobManager.ExecCtx :=
  ⟨fun _ => some 7, fun _ => .ok ⟨false, none, none, none, none, none⟩⟩

/-- Job-manager state: store `dbOne`, job 1 in the running map. -/
def mgrOne : JobManager.MgrState := ⟨dbOne, [1]⟩

/-- Job-manager state over an empty store with nothing running. -/
def mgrEmpty : JobManager.MgrState := ⟨dbEmpty, []⟩

/-- Scheduler state: store `dbOne`, no job running or scheduled. -/
def schedOne : Scheduler.SchedState := ⟨dbOne, [], []⟩

/-- Windows ping output for an unreachable host: four timeouts, zero
replies, a 100%-loss summary. -/
def unreachableOut : String :=
  "Pinging 10.0.0.1 with 32 bytes of data:\nRequest timed out.\nRequest timed out.\nRequest timed out.\nRequest timed out.\nPing statistics for 10.0.0.1:\n    Packets: Sent = 4, Received = 0, Lost = 4 (100% loss)"

/-- Windows ping output with three replies and a summary line reporting
25% packet loss. -/
def threeRepliesOut : String :=
  "Reply from 1.2.3.4: bytes=32 time=10ms TTL=64\nReply from 1.2.3.4: bytes=32 time=12ms TTL=64\nReply from 1.2.3.4: bytes=32 time=11ms TTL=64\nRequest timed out.\nPing statistics for 1.2.3.4:\n    Packets: Sent = 4, Received = 3, Lost = 1 (25% loss)"

/-! Shared lemmas. -/

/-- A keyed in-place list update commutes with `find?` on the key. -/
theorem find?_update {α : Type} (key : α → Nat) (k : Nat) (f : α → α)
    (l : List α) (hf : ∀ a, key a = k → key (f a) = k) :
    (l.map (fun a => if key a = k then f a else a)).find? (fun a => key a = k)
      = (l.find? (fun a => key a = k)).map f := by
  induction l with
  | nil => rfl
  | cons a t ih =>
    by_cases h : key a = k
    · simp [List.find?, h, hf a h]
    · simp [List.find?, h, ih]

/-- `getJob` after `updateJob` on the same id sees the updated row. -/
theorem getJob_updateJob (jid : Nat) (f : Store.JobRec → Store.JobRec)
    (db : Store.DB) (hf : ∀ j, (f j).id = j.id) :
    Store.getJob jid (Store.updateJob jid f db) = (Store.getJob jid db).map f :=
  find?_update Store.JobRec.id jid f db.jobs (fun a ha => by rw [hf]; exact ha)

/-- `getRun` after `complete_job_run` on the same run id sees the
finalized row. -/
theorem getRun_complete (end_t : ℚ) (rid : Nat) (success : Bool)
    (succ fail : Nat) (db : Store.DB) :
    Store.getRun rid (JobManager.complete_job_run end_t rid success succ fail db)
      = (Store.getRun rid db).map (fun r =>
          { r with end_time := some end_t
                   status := if success then "completed" else "failed"
                   successful_destinations := succ
                   failed_destinations := fail
                   error_message := none }) :=
  find?_update Store.JobRunRec.id rid _ db.job_runs (fun _ ha => ha)

/-- `collect_ping_metric` never touches the jobs table. -/
theorem collect_jobs_eq (jid did rid : Nat) (o : JobManager.ProbeOutcome)
    (db : Store.DB) :
    (JobManager.collect_ping_metric jid did rid o db).jobs = db.jobs := by
  cases o <;> rfl

/-- `collect_ping_metric` never touches the job_runs table. -/
theorem collect_runs_eq (jid did rid : Nat) (o : JobManager.ProbeOutcome)
    (db : Store.DB) :
    (JobManager.collect_ping_metric jid did rid o db).job_runs = db.job_runs := by
  cases o <;> rfl

/-- `collect_ping_metric` appends exactly one metric row. -/
theorem collect_metrics_len (jid did rid : Nat) (o : JobManager.ProbeOutcome)
    (db : Store.DB) :
    (JobManager.collect_ping_metric jid did rid o db).metrics.length
      = db.metrics.length + 1 := by
  cases o <;> simp [JobManager.collect_ping_metric]

/-- The metric loop of `processDestination`: jobs and job_runs are
untouched, exactly one metric row is stored per implemented (`"ping"`)
metric type, and the collected counter advances by the same amount. -/
theorem metric_loop_spec (ms : List String) (jid did rid : Nat)
    (o : JobManager.ProbeOutcome) (db : Store.DB) (mc : Nat) :
    (ms.foldl (fun (acc : Store.DB × Nat) m =>
        if m = "ping" then
          (JobManager.collect_ping_metric jid did rid o acc.1, acc.2 + 1)
        else acc) (db, mc)).1.jobs = db.jobs ∧
    (ms.foldl (fun (acc : Store.DB × Nat) m =>
        if m = "ping" then
          (JobManager.collect_ping_metric jid did rid o acc.1, acc.2 + 1)
        else acc) (db, mc)).1.job_runs = db.job_runs ∧
    (ms.foldl (fun (acc : Store.DB × Nat) m =>
        if m = "ping" then
          (JobManager.collect_ping_metric jid did rid o acc.1, acc.2 + 1)
        else acc) (db, mc)).1.metrics.length
      = db.metrics.length + (ms.filter (fun m => m = "ping")).length ∧
    (ms.foldl (fun (acc : Store.DB × Nat) m =>
        if m = "ping" then
          (JobManager.collect_ping_metric jid did rid o acc.1, acc.2 + 1)
        else acc) (db, mc)).2
      = mc + (ms.filter (fun m => m = "ping")).length := by
  induction ms generalizing db mc with
  | nil => exact ⟨rfl, rfl, rfl, rfl⟩
  | cons m t ih =>
    by_cases h : m = "ping"
    · obtain ⟨h1, h2, h3, h4⟩ :=
        ih (JobManager.collect_ping_metric jid did rid o db) (mc + 1)
      refine ⟨?_, ?_, ?_, ?_⟩
      · simpa [h, collect_jobs_eq] using h1
      · simpa [h, collect_runs_eq] using h2
      · simp only [List.foldl_cons, h, if_pos] at h3 ⊢
        rw [h3, collect_metrics_len, List.filter_cons]
        simp [h]
        omega
      · simp only [List.foldl_cons, h, if_pos] at h4 ⊢
        rw [h4, List.filter_cons]
        simp [h]
        omega
    · obtain ⟨h1, h2, h3, h4⟩ := ih db mc
      refine ⟨?_, ?_, ?_, ?_⟩ <;>
        simp only [List.foldl_cons, h, if_neg, if_false, List.filter_cons] <;>
        simp [h, h1, h2, h3, h4]

/-- The destination loop of `_execute_job`: `destinations_successful`
counts exactly the destinations whose host resolves, and
`destinations_failed` exactly those whose host does not — the probe
outcome influences neither; jobs and job_runs are untouched; one metric
row is stored per resolved destination and implemented metric type, so
an unresolved destination stores none. -/
theorem dest_loop_spec (ctx : JobManager.ExecCtx) (jid rid : Nat)
    (ms : List String) (ds : List JobManager.DestConfig)
    (c0 : JobManager.ExecCounters) (db0 : Store.DB) :
    (ds.foldl (JobManager.processDestination ctx jid rid ms) (c0, db0)).1.destinations_successful
      = c0.destinations_successful
        + (ds.filter (fun d => (ctx.resolve d.host).isSome)).length ∧
    (ds.foldl (JobManager.processDestination ctx jid rid ms) (c0, db0)).1.destinations_failed
      = c0.destinations_failed
        + (ds.filter (fun d => (ctx.resolve d.host).isNone)).length ∧
    (ds.foldl (JobManager.processDestination ctx jid rid ms) (c0, db0)).2.jobs
      = db0.jobs ∧
    (ds.foldl (JobManager.processDestination ctx jid rid ms) (c0, db0)).2.job_runs
      = db0.job_runs ∧
    (ds.foldl (JobManager.processDestination ctx jid rid ms) (c0, db0)).2.metrics.length
      = db0.metrics.length
        + (ds.filter (fun d => (ctx.resolve d.host).isSome)).length
          * (ms.filter (fun m => m = "ping")).length := by
  induction ds generalizing c0 db0 with
  | nil => exact ⟨by simp, by simp, rfl, rfl, by simp⟩
  | cons d t ih =>
    rcases hr : ctx.resolve d.host with _ | did
    · obtain ⟨h1, h2, h3, h4, h5⟩ :=
        ih { c0 with destinations_failed := c0.destinations_failed + 1 } db0
      refine ⟨?_, ?_, ?_, ?_, ?_⟩
      all_goals simp only [List.foldl_cons, JobManager.processDestination, hr,
        List.filter_cons]
      all_goals simp [hr, h1, h2, h3, h4, h5]
      all_goals omega
    · obtain ⟨m1, m2, m3, m4⟩ := metric_loop_spec ms jid did rid
        (ctx.probe d.host) db0 c0.metrics_collected
      obtain ⟨h1, h2, h3, h4, h5⟩ :=
        ih { c0 with
              metrics_collected :=
                (ms.foldl (fun (acc : Store.DB × Nat) m =>
                  if m = "ping" then
                    (JobManager.collect_ping_metric jid did rid
                      (ctx.probe d.host) acc.1, acc.2 + 1)
                  else acc) (db0, c0.metrics_collected)).2
              destinations_successful := c0.destinations_successful + 1 }
            ((ms.foldl (fun (acc : Store.DB × Nat) m =>
                if m = "ping" then
                  (JobManager.collect_ping_metric jid did rid
                    (ctx.probe d.host) acc.1, acc.2 + 1)
                else acc) (db0, c0.metrics_collected)).1)
      refine ⟨?_, ?_, ?_, ?_, ?_⟩
      · simp only [List.foldl_cons, JobManager.processDestination, hr,
          List.filter_cons] at h1 ⊢
        simp [hr] at h1 ⊢
        rw [h1]
        omega
      · simp only [List.foldl_cons, JobManager.processDestination, hr,
          List.filter_cons] at h2 ⊢
        simp [hr] at h2 ⊢
        rw [h2]
      · simp only [List.foldl_cons, JobManager.processDestination, hr] at h3 ⊢
        rw [h3, m1]
      · simp only [List.foldl_cons, JobManager.processDestination, hr] at h4 ⊢
        rw [h4, m2]
      · simp only [List.foldl_cons, JobManager.processDestination, hr,
          List.filter_cons] at h5 ⊢
        simp [hr] at h5 ⊢
        rw [h5, m3, Nat.succ_mul]
        ring

/-- Resolved and unresolved destinations partition the list. -/
theorem filter_resolve_partition (ds : List JobManager.DestConfig)
    (res : String → Option Nat) :
    (ds.filter (fun d => (res d.host).isSome)).length
      + (ds.filter (fun d => (res d.host).isNone)).length = ds.length := by
  induction ds with
  | nil => rfl
  | cons d t ih =>
    rcases hr : res d.host with _ | v <;>
      · simp [List.filter_cons, hr]
        omega

/-- `execute_job` unfolded: finalize the run with success iff no failed
destination, then update the job, then deregister. -/
theorem execute_job_eq (ctx : JobManager.ExecCtx) (end_t now : ℚ)
    (jid rid : Nat) (cfg : JobManager.JobConfig) (s : JobManager.MgrState) :
    JobManager.execute_job ctx end_t now jid rid cfg s =
      { db := JobManager.update_job_after_run now end_t jid cfg.interval
          (decide ((JobManager.runDestinations ctx jid rid cfg s.db).1.destinations_failed = 0))
          (JobManager.complete_job_run end_t rid
            (decide ((JobManager.runDestinations ctx jid rid cfg s.db).1.destinations_failed = 0))
            (JobManager.runDestinations ctx jid rid cfg s.db).1.destinations_successful
            (JobManager.runDestinations ctx jid rid cfg s.db).1.destinations_failed
            (JobManager.runDestinations ctx jid rid cfg s.db).2)
        running_jobs := s.running_jobs.erase jid } := rfl

/-- C2 (amended): when a run finishes, its JobRun row is finalized with
status `failed` iff `failed_destinations > 0` and `completed` otherwise;
on `completed` the job's persisted `next_run` becomes `now + interval`;
on `failed` the job is flagged disabled and its persisted `next_run` is
reset to the clock reading `now` taken during the update — it is not
left at its prior value. -/
theorem C2_finalization_amended (ctx : JobManager.ExecCtx) (end_t now : ℚ)
    (jid rid : Nat) (cfg : JobManager.JobConfig) (s : JobManager.MgrState)
    (r : Store.JobRunRec) (j : Store.JobRec)
    (hr : Store.getRun rid s.db = some r)
    (hj : Store.getJob jid s.db = some j) :
    Store.getRun rid (JobManager.execute_job ctx end_t now jid rid cfg s).db
      = some { r with
          end_time := some end_t
          status := if 0 < (JobManager.runDestinations ctx jid rid cfg s.db).1.destinations_failed
                    then "failed" else "completed"
          successful_destinations :=
            (JobManager.runDestinations ctx jid rid cfg s.db).1.destinations_successful
          failed_destinations :=
            (JobManager.runDestinations ctx jid rid cfg s.db).1.destinations_failed
          error_message := none } ∧
    Store.getJob jid (JobManager.execute_job ctx end_t now jid rid cfg s).db
      = some { j with
          last_run := some end_t
          enabled := decide ((JobManager.runDestinations ctx jid rid cfg s.db).1.destinations_failed = 0)
          next_run := some (if 0 < (JobManager.runDestinations ctx jid rid cfg s.db).1.destinations_failed
                            then now else now + (cfg.interval : ℚ)) } := by
  obtain ⟨d1, d2, d3, d4, d5⟩ :=
    dest_loop_spec ctx jid rid cfg.metrics cfg.destinations ⟨0, 0, 0⟩ s.db
  rw [execute_job_eq]
  constructor
  · show Store.getRun rid
      (JobManager.complete_job_run end_t rid _ _ _
        (JobManager.runDestinations ctx jid rid cfg s.db).2) = _
    rw [getRun_complete]
    have hstep : Store.getRun rid (JobManager.runDestinations ctx jid rid cfg s.db).2
        = some r := by
      show (JobManager.runDestinations ctx jid rid cfg s.db).2.job_runs.find? _ = _
      simp only [JobManager.runDestinations]
      rw [d4]
      exact hr
    rw [hstep]
    rcases Nat.eq_zero_or_pos
        (JobManager.runDestinations ctx jid rid cfg s.db).1.destinations_failed with
      h0 | hpos
    · simp [h0]
    · simp [hpos, Nat.pos_iff_ne_zero.mp hpos]
  · rw [show Store.getJob jid
        (JobManager.update_job_after_run now end_t jid cfg.interval _ _) =
        (Store.getJob jid
          (JobManager.complete_job_run end_t rid _ _ _
            (JobManager.runDestinations ctx jid rid cfg s.db).2)).map _ from
      getJob_updateJob jid _ _ (fun _ => rfl)]
    have hstep : Store.getJob jid
        (JobManager.complete_job_run end_t rid
          (decide ((JobManager.runDestinations ctx jid rid cfg s.db).1.destinations_failed = 0))
          (JobManager.runDestinations ctx jid rid cfg s.db).1.destinations_successful
          (JobManager.runDestinations ctx jid rid cfg s.db).1.destinations_failed
          (JobManager.runDestinations ctx jid rid cfg s.db).2)
        = some j := by
      show (JobManager.runDestinations ctx jid rid cfg s.db).2.jobs.find? _ = _
      simp only [JobManager.runDestinations]
      rw [d3]
      exact hj
    rw [hstep]
    rcases Nat.eq_zero_or_pos
        (JobManager.runDestinations ctx jid rid cfg s.db).1.destinations_failed with
      h0 | hpos
    · simp [h0, JobManager.update_job_after_run]
    · simp [hpos, Nat.pos_iff_ne_zero.mp hpos, JobManager.update_job_after_run]

/-- Counterexample to C2 as stated: a run over one unresolvable
destination fails, and the job's persisted `next_run` moves from its
prior value 500 to the clock reading 1000 — it is not left unchanged. -/
theorem C2_counterexample :
    (Store.getJob 1 dbOne).map Store.JobRec.next_run = some (some 500) ∧
    (Store.getRun 1 (JobManager.execute_job ctxUnresolved 950 1000 1 1 cfgPing1 mgrOne).db).map
        Store.JobRunRec.status = some "failed" ∧
    (Store.getRun 1 (JobManager.execute_job ctxUnresolved 950 1000 1 1 cfgPing1 mgrOne).db).map
        Store.JobRunRec.failed_destinations = some 1 ∧
    (Store.getJob 1 (JobManager.execute_job ctxUnresolved 950 1000 1 1 cfgPing1 mgrOne).db).map
        Store.JobRec.next_run = some (some 1000) ∧
    (some (1000 : ℚ) ≠ some (500 : ℚ)) := by
  decide

/-- Witness for C2 (amended) at a concrete failing run. -/
theorem C2_witness :
    Store.getRun 1 (JobManager.execute_job ctxUnresolved 950 1000 1 1 cfgPing1 mgrOne).db
      = some { runOne with
               end_time := some 950
               status := "failed"
               successful_destinations := 0
               failed_destinations := 1
               error_message := none } ∧
    Store.getJob 1 (JobManager.execute_job ctxUnresolved 950 1000 1 1 cfgPing1 mgrOne).db
      = some { jobOne with
               last_run := some 950
               enabled := false
               next_run := some 1000 } :=
  C2_finalization_amended ctxUnresolved 950 1000 1 1 cfgPing1 mgrOne runOne jobOne
    (by decide) (by decide)

/-- C3 (amended): `destinations_successful` counts exactly the
destinations whose host resolves to a Destination record — probe
failures do not prevent the count, because `_collect_ping_metric`
swallows them; `destinations_failed` counts exactly the unresolved
destinations, which are failed without any probe being attempted (no
metric row is stored for them); the loop continues over every
destination, so the two counts partition the destination list. -/
theorem C3_destination_counting_amended (ctx : JobManager.ExecCtx)
    (jid rid : Nat) (cfg : JobManager.JobConfig) (db : Store.DB) :
    (JobManager.runDestinations ctx jid rid cfg db).1.destinations_successful
      = (cfg.destinations.filter (fun d => (ctx.resolve d.host).isSome)).length ∧
    (JobManager.runDestinations ctx jid rid cfg db).1.destinations_failed
      = (cfg.destinations.filter (fun d => (ctx.resolve d.host).isNone)).length ∧
    (JobManager.runDestinations ctx jid rid cfg db).1.destinations_successful
      + (JobManager.runDestinations ctx jid rid cfg db).1.destinations_failed
      = cfg.destinations.length ∧
    (JobManager.runDestinations ctx jid rid cfg db).2.metrics.length
      = db.metrics.length
        + (cfg.destinations.filter (fun d => (ctx.resolve d.host).isSome)).length
          * (cfg.metrics.filter (fun m => m = "ping")).length := by
  obtain ⟨d1, d2, d3, d4, d5⟩ :=
    dest_loop_spec ctx jid rid cfg.metrics cfg.destinations ⟨0, 0, 0⟩ db
  refine ⟨by simpa using d1, by simpa using d2, ?_, by simpa using d5⟩
  have := filter_resolve_partition cfg.destinations ctx.resolve
  simp only [JobManager.runDestinations] at *
  omega

/-- Counterexample to C3 as stated: the single destination resolves,
its only configured metric probe returns an unsuccessful result (the
stored sample has status `failed`), yet the destination is counted in
`destinations_successful`. -/
theorem C3_counterexample :
    (JobManager.runDestinations ctxFailProbe 1 1 cfgPing1 dbEmpty).1.destinations_successful = 1 ∧
    (JobManager.runDestinations ctxFailProbe 1 1 cfgPing1 dbEmpty).1.destinations_failed = 0 ∧
    ((JobManager.runDestinations ctxFailProbe 1 1 cfgPing1 dbEmpty).2.metrics.map
        Store.MetricRec.status) = ["failed"] := by
  decide

/-- C8 (amended): every probe outcome, returned or raised, stores
exactly one metric sample and touches nothing else; a sample for a
probe that raised carries response time 0 (not null) and the error
string in its metadata; a sample for a returned result carries the
result's (possibly null) `latency_ms` and no error detail, with status
by the result's success flag.  Both branches of
`_collect_ping_metric` return normally, so the failure never
propagates past the metric-collection step. -/
theorem C8_metric_persistence_amended (jid did rid : Nat) (db : Store.DB) :
    (∀ o, (JobManager.collect_ping_metric jid did rid o db).metrics.length
        = db.metrics.length + 1) ∧
    (∀ o, (JobManager.collect_ping_metric jid did rid o db).jobs = db.jobs ∧
          (JobManager.collect_ping_metric jid did rid o db).job_runs = db.job_runs) ∧
    (∀ msg, ((JobManager.collect_ping_metric jid did rid (.raised msg) db).metrics.getLast?).map
          (fun m => (m.status, m.value, m.meta_error))
        = some ("failed", some 0, some msg)) ∧
    (∀ r, ((JobManager.collect_ping_metric jid did rid (.ok r) db).metrics.getLast?).map
          (fun m => (m.status, m.value, m.meta_error))
        = some ((if r.success then "success" else "failed"), r.latency_ms, none)) := by
  refine ⟨fun o => collect_metrics_len jid did rid o db,
          fun o => ⟨collect_jobs_eq jid did rid o db, collect_runs_eq jid did rid o db⟩,
          ?_, ?_⟩
  · intro msg
    simp [JobManager.collect_ping_metric, List.getLast?_concat]
  · intro r
    simp [JobManager.collect_ping_metric, List.getLast?_concat]

/-- Counterexample to C8 as stated: the sample stored for a probe that
raised carries response time `0`, not a null response time. -/
theorem C8_counterexample :
    ((JobManager.collect_ping_metric 1 2 3 (.raised "boom") dbEmpty).metrics.map
        (fun m => (m.status, m.value, m.meta_error)))
      = [("failed", some (0 : ℚ), some "boom")] ∧
    some (0 : ℚ) ≠ (none : Option ℚ) := by
  decide

/-- C4: `ping_async` never raises — it is a total function of the spawn
outcome — and each failure branch (spawn error, timeout, non-zero exit
code) returns `success = false` with an error string, while an exit-0
output in which no reply line parses returns `success = false` and
`packets_received = 0`. -/
theorem C4_ping_async_total (host : String) (c t : Nat) :
    (∀ msg, (PingCollector.ping_async host c t (.spawnError msg)).success = false ∧
            (PingCollector.ping_async host c t (.spawnError msg)).error = some msg) ∧
    ((PingCollector.ping_async host c t .timedOut).success = false ∧
     (PingCollector.ping_async host c t .timedOut).error
       = some ("Ping timed out after " ++ toString t ++ " seconds")) ∧
    (∀ rc out err, rc ≠ 0 →
       (PingCollector.ping_async host c t (.exited rc out err)).success = false ∧
       (PingCollector.ping_async host c t (.exited rc out err)).error
         = some ("Ping failed with code " ++ toString rc)) ∧
    (∀ out err, (PingCollector.scanLines out).1 = [] →
       (PingCollector.ping_async host c t (.exited 0 out err)).success = false ∧
       (PingCollector.ping_async host c t (.exited 0 out err)).packets_received
         = some 0) := by
  refine ⟨fun msg => ⟨rfl, rfl⟩, ⟨rfl, rfl⟩, ?_, ?_⟩
  · intro rc out err hrc
    constructor <;> simp [PingCollector.ping_async, PingCollector.errReturn, hrc]
  · intro out err h
    constructor <;>
      simp [PingCollector.ping_async, PingCollector.ofParsed,
        PingCollector.parse_ping_output, h]

/-- Witness for C4: the unreachable-host scenario (zero parsed replies)
and a non-zero exit code, at concrete inputs. -/
theorem C4_witness :
    ((PingCollector.ping_async "10.0.0.1" 4 5 (.exited 0 unreachableOut "")).success
        = false ∧
     (PingCollector.ping_async "10.0.0.1" 4 5 (.exited 0 unreachableOut "")).packets_received
        = some 0) ∧
    (PingCollector.ping_async "10.0.0.1" 4 5 (.exited 1 "" "")).error
      = some ("Ping failed with code " ++ toString (1 : Int)) :=
  ⟨(C4_ping_async_total "10.0.0.1" 4 5).2.2.2 unreachableOut "" (by decide),
   ((C4_ping_async_total "10.0.0.1" 4 5).2.2.1 1 "" "" (by decide)).2⟩

/-- C10 (implicit): in every successfully parsed probe result the
reported `packets_sent` is `packets_received` plus the parsed
packet-loss *percentage*; with three parsed replies and a summary line
reporting 25% loss the result is `packets_sent = 28`. -/
theorem C10_packets_sent_formula (host out : String) :
    (PingCollector.parse_ping_output out host).packets_sent
      = (PingCollector.parse_ping_output out host).packets_received
        + (PingCollector.parse_ping_output out host).packet_loss_percent ∧
    (PingCollector.parse_ping_output threeRepliesOut "1.2.3.4").packets_received = 3 ∧
    (PingCollector.parse_ping_output threeRepliesOut "1.2.3.4").packet_loss_percent = 25 ∧
    (PingCollector.parse_ping_output threeRepliesOut "1.2.3.4").packets_sent = 28 := by
  refine ⟨rfl, ?_, ?_, ?_⟩ <;> decide

/-- Bounds on `Real.sqrt (5/4)` tight enough to settle the rounding. -/
theorem sqrt_five_quarters_bounds :
    (223 / 200 : ℝ) ≤ Real.sqrt (5 / 4) ∧ Real.sqrt (5 / 4) < 9 / 8 := by
  have hs2 : Real.sqrt (5 / 4) ^ 2 = 5 / 4 :=
    Real.sq_sqrt (by norm_num)
  have hs0 : (0 : ℝ) ≤ Real.sqrt (5 / 4) := Real.sqrt_nonneg _
  constructor
  · nlinarith [hs2, hs0]
  · nlinarith [hs2, hs0]

/-- The rounded jitter of the sample list `[10, 12, 11, 13]`. -/
theorem pyRound2_sqrt_five_quarters :
    PingCollector.pyRound2 (Real.sqrt (5 / 4)) = 28 / 25 := by
  obtain ⟨hlow, hhigh⟩ := sqrt_five_quarters_bounds
  have h112 : round (100 * Real.sqrt (5 / 4)) = 112 := by
    rw [round_eq, Int.floor_eq_iff]
    constructor
    · push_cast
      linarith
    · push_cast
      linarith
  unfold PingCollector.pyRound2
  rw [h112]
  norm_num

/-- C5: the computed jitter is `None` for fewer than two samples, and
for at least two samples it equals the population standard deviation of
the samples rounded to two decimals; in particular the jitter of
`[10, 12, 11, 13]` is `1.12 = 28/25`. -/
theorem C5_jitter_population_std_dev :
    (∀ ts : List ℚ, ts.length < 2 → PingCollector.calculate_jitter ts = none) ∧
    (∀ ts : List ℚ, 2 ≤ ts.length →
       PingCollector.calculate_jitter ts
         = some (PingCollector.pyRound2 (PingCollector.population_std_dev ts))) ∧
    PingCollector.calculate_jitter [10, 12, 11, 13] = some (28 / 25) := by
  refine ⟨?_, ?_, ?_⟩
  · intro ts h
    simp [PingCollector.calculate_jitter, h]
  · intro ts h
    simp only [PingCollector.calculate_jitter, PingCollector.population_std_dev]
    rw [if_neg (by omega)]
  · simp only [PingCollector.calculate_jitter]
    rw [if_neg (by norm_num)]
    have hv : ((([10, 12, 11, 13] : List ℚ).map
          (fun t => (t - ([10, 12, 11, 13] : List ℚ).sum / (([10, 12, 11, 13] : List ℚ).length : ℚ)) ^ 2)).sum
            / (([10, 12, 11, 13] : List ℚ).length : ℚ)) = 5 / 4 := by
      norm_num [List.sum_cons, List.sum_nil]
    rw [hv]
    rw [show ((5 / 4 : ℚ) : ℝ) = 5 / 4 by norm_num]
    rw [pyRound2_sqrt_five_quarters]

/-- Witness for C5 at concrete sample lists. -/
theorem C5_witness :
    PingCollector.calculate_jitter ([] : List ℚ) = none ∧
    PingCollector.calculate_jitter [10, 12, 11, 13] = some (28 / 25) :=
  ⟨C5_jitter_population_std_dev.1 [] (by decide),
   C5_jitter_population_std_dev.2.2⟩

/-- `schedule_job` unfolded on a job that is not running. -/
theorem schedule_job_not_running (now₁ now₂ : ℚ) (jid itv : Nat)
    (s : Scheduler.SchedState) (h : jid ∉ s.running_jobs) :
    Scheduler.schedule_job now₁ now₂ jid itv s =
      (true,
       { s with
         scheduled_jobs := Scheduler.setScheduled jid
           (if now₁ + (itv : ℚ) - now₂ < 0 then 0 else now₁ + (itv : ℚ) - now₂)
           s.scheduled_jobs
         db := Scheduler.update_job_next_run jid (some (now₁ + (itv : ℚ))) s.db }) := by
  simp [Scheduler.schedule_job, Scheduler.calculate_next_run, h]

/-- C7: `schedule_job` refuses (returns `false`, changing nothing) when
the job is in the running set; otherwise it returns `true`, persists
`next_run = now + interval` as computed by `_calculate_next_run`,
records a dispatch unit for the job in the scheduled map, and the
recorded dispatch delay is clamped to zero whenever the computed run
time is already in the past at dispatch-creation time. -/
theorem C7_schedule_job (now₁ now₂ : ℚ) (jid itv : Nat)
    (s : Scheduler.SchedState) :
    (jid ∈ s.running_jobs → Scheduler.schedule_job now₁ now₂ jid itv s = (false, s)) ∧
    (jid ∉ s.running_jobs →
       (Scheduler.schedule_job now₁ now₂ jid itv s).1 = true ∧
       Scheduler.calculate_next_run now₁ itv = some (now₁ + (itv : ℚ)) ∧
       (∀ j, Store.getJob jid s.db = some j →
          Store.getJob jid (Scheduler.schedule_job now₁ now₂ jid itv s).2.db
            = some { j with next_run := some (now₁ + (itv : ℚ)) }) ∧
       ((Scheduler.schedule_job now₁ now₂ jid itv s).2.scheduled_jobs.find?
            (fun e => e.1 = jid)).map Prod.snd
         = some (if now₁ + (itv : ℚ) - now₂ < 0 then 0
                 else now₁ + (itv : ℚ) - now₂) ∧
       (now₁ + (itv : ℚ) < now₂ →
          ((Scheduler.schedule_job now₁ now₂ jid itv s).2.scheduled_jobs.find?
              (fun e => e.1 = jid)).map Prod.snd = some 0)) := by
  constructor
  · intro h
    simp [Scheduler.schedule_job, h]
  · intro h
    rw [schedule_job_not_running now₁ now₂ jid itv s h]
    refine ⟨rfl, rfl, ?_, ?_, ?_⟩
    · intro j hj
      show Store.getJob jid (Scheduler.update_job_next_run jid _ s.db) = _
      unfold Scheduler.update_job_next_run
      rw [getJob_updateJob jid
        (fun jj => { jj with next_run := some (now₁ + (itv : ℚ)) }) s.db
        (fun _ => rfl), hj]
      rfl
    · simp [Scheduler.setScheduled, List.find?]
    · intro hpast
      have hneg : now₁ + (itv : ℚ) - now₂ < 0 := by linarith
      simp [Scheduler.setScheduled, List.find?, hneg]

/-- Witness for C7 at a concrete state whose computed run time is
already in the past, forcing the zero clamp. -/
theorem C7_witness :
    (Scheduler.schedule_job 100 200 1 60 schedOne).1 = true ∧
    (Store.getJob 1 (Scheduler.schedule_job 100 200 1 60 schedOne).2.db).map
        Store.JobRec.next_run = some (some 160) ∧
    ((Scheduler.schedule_job 100 200 1 60 schedOne).2.scheduled_jobs.find?
        (fun e => e.1 = 1)).map Prod.snd = some 0 := by
  refine ⟨((C7_schedule_job 100 200 1 60 schedOne).2 (by decide)).1, ?_,
    ((C7_schedule_job 100 200 1 60 schedOne).2 (by decide)).2.2.2.2 (by norm_num)⟩
  rw [((C7_schedule_job 100 200 1 60 schedOne).2 (by decide)).2.2.1 jobOne (by decide)]
  norm_num

/-- `schedule_job` never changes the running set. -/
theorem schedule_job_running_eq (now₁ now₂ : ℚ) (jid itv : Nat)
    (st : Scheduler.SchedState) :
    (Scheduler.schedule_job now₁ now₂ jid itv st).2.running_jobs
      = st.running_jobs := by
  by_cases h : jid ∈ st.running_jobs <;>
    simp [Scheduler.schedule_job, Scheduler.calculate_next_run, h]

/-- Ids present in the scheduled map survive a `schedule_job` call. -/
theorem scheduledIds_mono (now₁ now₂ : ℚ) (jid itv : Nat)
    (st : Scheduler.SchedState) (k : Nat)
    (hk : k ∈ Scheduler.scheduledIds st) :
    k ∈ Scheduler.scheduledIds (Scheduler.schedule_job now₁ now₂ jid itv st).2 := by
  by_cases h : jid ∈ st.running_jobs
  · simpa [Scheduler.schedule_job, h] using hk
  · rw [schedule_job_not_running now₁ now₂ jid itv st h]
    by_cases hkj : k = jid
    · simp [Scheduler.scheduledIds, Scheduler.setScheduled, hkj]
    · obtain ⟨e, he, hek⟩ := List.mem_map.mp hk
      refine List.mem_cons.mpr (Or.inr (List.mem_map.mpr ⟨e, ?_, hek⟩))
      refine List.mem_filter.mpr ⟨he, ?_⟩
      simp [hek, hkj]

/-- A job not in the running set lands in the scheduled map. -/
theorem scheduledIds_self (now₁ now₂ : ℚ) (jid itv : Nat)
    (st : Scheduler.SchedState) (h : jid ∉ st.running_jobs) :
    jid ∈ Scheduler.scheduledIds (Scheduler.schedule_job now₁ now₂ jid itv st).2 := by
  simp [Scheduler.schedule_job, Scheduler.calculate_next_run, h,
    Scheduler.scheduledIds, Scheduler.setScheduled]

/-- Ids in the scheduled map survive a whole reschedule fold. -/
theorem fold_scheduledIds_mono (now₁ now₂ : ℚ) (l : List Store.JobRec)
    (st : Scheduler.SchedState) (k : Nat)
    (hk : k ∈ Scheduler.scheduledIds st) :
    k ∈ Scheduler.scheduledIds
      (l.foldl (fun acc jj => (Scheduler.schedule_job now₁ now₂ jj.id jj.interval acc).2) st) := by
  induction l generalizing st with
  | nil => exact hk
  | cons a t ih =>
    exact ih _ (scheduledIds_mono now₁ now₂ a.id a.interval st k hk)

/-- Every job of the fold whose id is not running ends up scheduled. -/
theorem fold_schedules (now₁ now₂ : ℚ) (l : List Store.JobRec)
    (st : Scheduler.SchedState) (j : Store.JobRec) (hj : j ∈ l)
    (hrun : j.id ∉ st.running_jobs) :
    j.id ∈ Scheduler.scheduledIds
      (l.foldl (fun acc jj => (Scheduler.schedule_job now₁ now₂ jj.id jj.interval acc).2) st) := by
  induction l generalizing st with
  | nil => cases hj
  | cons a t ih =>
    rcases List.mem_cons.mp hj with rfl | hjt
    · exact fold_scheduledIds_mono now₁ now₂ t _ j.id
        (scheduledIds_self now₁ now₂ j.id j.interval st hrun)
    · exact ih _ hjt (by rwa [schedule_job_running_eq])

/-- C9: the reconciliation pass of the maintenance loop selects exactly
the jobs that are enabled, whose persisted `next_run` is at or before
the current time, and whose id is in neither the running set nor the
scheduled map; it calls `schedule_job` on each of them, after which each
is present in the scheduled map; the loop's fixed period is 30 seconds,
so such a job is rescheduled within one 30-second tick. -/
theorem C9_reconciliation (now now₁ now₂ : ℚ) (s : Scheduler.SchedState) :
    (∀ j, j ∈ Scheduler.reschedule_selection now s ↔
       (j ∈ s.db.jobs ∧ j.enabled = true ∧
        (∃ t, j.next_run = some t ∧ t ≤ now) ∧
        j.id ∉ s.running_jobs ∧ j.id ∉ Scheduler.scheduledIds s)) ∧
    Scheduler.scheduler_loop_sleep_seconds = 30 ∧
    (∀ j ∈ Scheduler.reschedule_selection now s,
       j.id ∈ Scheduler.scheduledIds (Scheduler.reschedule_jobs now now₁ now₂ s)) := by
  have hiff : ∀ j, j ∈ Scheduler.reschedule_selection now s ↔
      (j ∈ s.db.jobs ∧ j.enabled = true ∧
       (∃ t, j.next_run = some t ∧ t ≤ now) ∧
       j.id ∉ s.running_jobs ∧ j.id ∉ Scheduler.scheduledIds s) := by
    intro j
    simp only [Scheduler.reschedule_selection, List.mem_filter,
      Bool.and_eq_true, Bool.not_eq_true', Bool.or_eq_false_iff,
      List.contains, List.elem_eq_mem, decide_eq_true_eq,
      decide_eq_false_iff_not]
    rcases hn : j.next_run with _ | t
    · simp [hn]
    · simp only [hn, decide_eq_true_eq]
      constructor
      · rintro ⟨hmem, ⟨hen, hle⟩, hrs⟩
        exact ⟨hmem, hen, ⟨t, rfl, hle⟩, hrs.1, hrs.2⟩
      · rintro ⟨hmem, hen, ⟨u, hu, hle⟩, hr, hs⟩
        cases hu
        exact ⟨hmem, ⟨hen, hle⟩, hr, hs⟩
  refine ⟨hiff, rfl, ?_⟩
  intro j hj
  exact fold_schedules now₁ now₂ _ s j hj ((hiff j).mp hj).2.2.2.1

/-- Witness for C9: a restart-like state — job enabled, `next_run` in
the past, in neither map — is selected and lands in the scheduled map. -/
theorem C9_witness :
    jobOne ∈ Scheduler.reschedule_selection 1000 schedOne ∧
    jobOne.id ∈ Scheduler.scheduledIds
      (Scheduler.reschedule_jobs 1000 1000 1000 schedOne) :=
  ⟨by decide,
   (C9_reconciliation 1000 1000 1000 schedOne).2.2 jobOne (by decide)⟩

/-- C1: calling `start_job` twice in immediate succession on a job that
is not running yields one `true` then one `false`, creates exactly one
JobRun row (the `running` row of the first call), and `start_job` on an
already-running job returns `false` and creates nothing. -/
theorem C1_start_job_at_most_once (now₁ now₂ : ℚ) (jid : Nat)
    (cfg : JobManager.JobConfig) (s : JobManager.MgrState)
    (h : jid ∉ s.running_jobs) :
    (JobManager.start_job now₁ jid cfg s).1 = true ∧
    (JobManager.start_job now₂ jid cfg
        (JobManager.start_job now₁ jid cfg s).2).1 = false ∧
    (JobManager.start_job now₂ jid cfg
        (JobManager.start_job now₁ jid cfg s).2).2.db.job_runs
      = s.db.job_runs ++
        [{ id := s.db.job_runs.length + 1, job_id := jid, start_time := now₁,
           end_time := none, status := "running",
           total_destinations := cfg.destinations.length,
           successful_destinations := 0, failed_destinations := 0,
           error_message := none }] ∧
    (∀ t : JobManager.MgrState, jid ∈ t.running_jobs →
       JobManager.start_job now₂ jid cfg t = (false, t)) := by
  refine ⟨?_, ?_, ?_, ?_⟩
  · simp [JobManager.start_job, h]
  · simp [JobManager.start_job, JobManager.create_job_run, h]
  · simp [JobManager.start_job, JobManager.create_job_run, h]
  · intro t ht
    simp [JobManager.start_job, ht]

/-- Witness for C1 at a concrete state. -/
theorem C1_witness :
    (JobManager.start_job 0 1 cfgPing1 mgrEmpty).1 = true ∧
    (JobManager.start_job 7 1 cfgPing1
        (JobManager.start_job 0 1 cfgPing1 mgrEmpty).2).1 = false :=
  ⟨(C1_start_job_at_most_once 0 7 1 cfgPing1 mgrEmpty (by decide)).1,
   (C1_start_job_at_most_once 0 7 1 cfgPing1 mgrEmpty (by decide)).2.1⟩

/-- C6: evaluation of `stop_job` at the failing input.  On a job whose
execution unit has already begun running (`unitStarted = true`, the
ordinary case for a running job), `stop_job` returns `false` and leaves
the job enabled — the unit's own cleanup removed the id from the
running map first, so `stop_job`'s unconditional delete raises
`KeyError`, the blanket handler swallows it and `_update_job_status`
is never reached.  On a non-running job it returns `false` and changes
nothing; only when the unit never started does it disable the job and
return `true`. -/
theorem C6_stop_job_bug :
    JobManager.stop_job 1 true mgrOne = (false, ⟨dbOne, []⟩) ∧
    ((JobManager.stop_job 1 true mgrOne).2.db.jobs.map Store.JobRec.enabled)
      = [true] ∧
    JobManager.stop_job 2 true mgrOne = (false, mgrOne) ∧
    JobManager.stop_job 1 false mgrOne
      = (true, ⟨⟨[⟨1, false, 60, none, some 500⟩], [runOne], []⟩, []⟩) := by
  decide

